import Mathlib

/-!
Verification of the matrix-addition exercise harness
(`Lesson_1_matrixAdd/CUDA/exercise/main.cpp`).

The control flow of `main` (argument handling, allocation, phase ordering,
printing, verification, cleanup, exit code) is embedded faithfully from
`main.cpp`.  The helper routines declared in `pch.h` — `InitializeMatrixSame`,
`cpu_matrix_add`, `gpu_matrix_add`, `MatrixVerification`, `PrintMatrix` and
the constants `DEFAULT_DIM`, `MAT_A_VAL`, `MAT_B_VAL`, `VERIF_TOL` — are not
part of the available sources; where a claim depends on them they are
modelled from the specification.  Matrix cell values are embedded as
rationals; a matrix buffer is a function from the flat row-major index to
its value.
-/

namespace MatrixAdd

/-- Modelled from the spec: `DEFAULT_DIM` (declared in `pch.h`, missing from
the sources) is the default dimension used when no arguments are passed;
the comment in `main.cpp` and the spec give 1024. -/
def DEFAULT_DIM : Int := 1024

/-- Modelled from the spec: `MAT_A_VAL` (declared in `pch.h`, missing from
the sources) is the constant fill value 3.0 for matrix A. -/
def MAT_A_VAL : ℚ := 3

/-- Modelled from the spec: `MAT_B_VAL` (declared in `pch.h`, missing from
the sources) is the constant fill value 2.0 for matrix B. -/
def MAT_B_VAL : ℚ := 2

/-- Modelled from the spec: `VERIF_TOL` (declared in `pch.h`, missing from
the sources) is the verification tolerance 1e-5. -/
def VERIF_TOL : ℚ := 1 / 100000

/-- Modelled from the spec: `InitializeMatrixSame` (defined in `pch.h`,
missing from the sources) fills every cell of a `dx × dy` matrix with the
constant value `v`. -/
def InitializeMatrixSame (dx dy : Nat) (v : ℚ) : Nat → ℚ := fun _ => v

/-- Modelled from the spec: `cpu_matrix_add` (defined in `pch.h`, missing
from the sources) writes `out[i] = A[i] + B[i]` for every cell of the
`dx × dy` grid, by ordinary sequential iteration. -/
def cpu_matrix_add (A B : Nat → ℚ) (dx dy : Nat) : Nat → ℚ :=
  fun i => A i + B i

/-- Modelled from the spec: `gpu_matrix_add` (defined in `pch.h`, missing
from the sources) is functionally identical to the host add — every output
cell of the `dx × dy` grid receives `A[i] + B[i]`, computed by exactly one
execution unit, with a synchronous, value-preserving round trip through
accelerator memory. -/
def gpu_matrix_add (A B : Nat → ℚ) (dx dy : Nat) : Nat → ℚ :=
  fun i => A i + B i

/-- Modelled from the spec: `MatrixVerification` (defined in `pch.h`,
missing from the sources) counts the cells of the `dx × dy` grid at which
the two matrices differ by more than the tolerance; zero means the
matrices agree everywhere within tolerance. -/
def MatrixVerification (x y : Nat → ℚ) (dx dy : Nat) (tol : ℚ) : Nat :=
  (List.range (dx * dy)).countP fun i => decide (tol < |x i - y i|)

/-- Result of the argument-count branch at `main.cpp:17-27`.  Positional
arguments are taken already `atoi`-converted (one `Int` per argument, since
`atoi` can return any machine integer, including zero and negatives); an
`argv` read past the supplied arguments is `none`. -/
inductive ArgBranch
  | parseBranch (a1 a2 : Option Int)
  | usageBranch
  | defaultBranch
deriving DecidableEq, Repr

/-- Branch selection of `main.cpp:17-27`.  `argc` is one more than the
number of positional arguments; `argc > 1 && argc < 4` reads `argv[1]` and
`argv[2]` (indices 0 and 1 of the positional list), `argc >= 4` is a usage
error, and otherwise the built-in defaults are used. -/
def argBranch (args : List Int) : ArgBranch :=
  let argc := args.length + 1
  if 1 < argc ∧ argc < 4 then ArgBranch.parseBranch (args.get? 0) (args.get? 1)
  else if 4 ≤ argc then ArgBranch.usageBranch
  else ArgBranch.defaultBranch

/-- Outcome of dimension resolution: either concrete dimensions or the
usage-error path. -/
inductive Resolution
  | dims (dx dy : Int)
  | usage
deriving DecidableEq, Repr

/-- Dimension resolution of `main.cpp:17-27`.  `garbage` stands for the
unspecified value obtained when `atoi(argv[2])` is evaluated although only
one positional argument was supplied (the read falls outside the argument
list). -/
def resolveDims (args : List Int) (garbage : Int) : Resolution :=
  match argBranch args with
  | ArgBranch.parseBranch a1 a2 =>
      Resolution.dims (a1.getD garbage) (a2.getD garbage)
  | ArgBranch.usageBranch => Resolution.usage
  | ArgBranch.defaultBranch => Resolution.dims DEFAULT_DIM DEFAULT_DIM

/-- The four matrices of a run: inputs `A` and `B`, accelerator result `C`,
host reference `chk` (the source's `h_check`). -/
inductive Mat
  | A
  | B
  | C
  | chk
deriving DecidableEq, Repr

/-- Observable events of a run of `main`, in program order.  `alloc` records
the requested size (in elements, `dx*dy` as in `main.cpp:32-35`) and whether
the allocation succeeded — `main.cpp` never inspects the result.  `write`
and `read` are full-buffer accesses; `printDump` is the small-matrix debug
printout; `verify` carries the mismatch count reported by
`MatrixVerification`; `free` is the cleanup of `main.cpp:70-73`. -/
inductive Event
  | usageMsg
  | alloc (m : Mat) (size : Int) (ok : Bool)
  | write (m : Mat)
  | read (m : Mat)
  | printDump
  | verify (mismatches : Nat)
  | free (m : Mat)
deriving DecidableEq, Repr

/-- Result of a run: the exit code of `main`, the resolved dimensions (none
on the usage path), and the event trace. -/
structure RunResult where
  exitCode : Int
  dims : Option (Int × Int)
  events : List Event
deriving DecidableEq, Repr

/-- The device-side addition as the harness sees it: `main.cpp` calls
`gpu_matrix_add` as a black box producing the contents of `h_C` from the two
inputs and the dimensions. -/
def DeviceAddFn : Type :=
  (Nat → ℚ) → (Nat → ℚ) → Nat → Nat → (Nat → ℚ)

/-- Embedding of `main` (`main.cpp:9-75`).  `deviceAdd` abstracts the body
of `gpu_matrix_add`; `allocOk` records which of the four unchecked `malloc`
calls succeed (the code proceeds identically either way); `garbage` is the
value read for the second dimension when exactly one positional argument is
given.  On the usage path `main` returns -1 after printing usage; otherwise
it allocates the four matrices, fills `A` and `B`, runs the host add into
`chk`, the device add into `C`, prints both results when `dx <= 6 && dy <= 6`,
runs `MatrixVerification` (ignoring its outcome), frees all four matrices
and returns 0. -/
def mainRun (deviceAdd : DeviceAddFn) (allocOk : Mat → Bool)
    (args : List Int) (garbage : Int) : RunResult :=
  match resolveDims args garbage with
  | Resolution.usage => ⟨-1, none, [Event.usageMsg]⟩
  | Resolution.dims dx dy =>
      let sz : Int := dx * dy
      let dxn := dx.toNat
      let dyn := dy.toNat
      let hA := InitializeMatrixSame dxn dyn MAT_A_VAL
      let hB := InitializeMatrixSame dxn dyn MAT_B_VAL
      let hcheck := cpu_matrix_add hA hB dxn dyn
      let hC := deviceAdd hA hB dxn dyn
      let m := MatrixVerification hcheck hC dxn dyn VERIF_TOL
      ⟨0, some (dx, dy),
        [Event.alloc Mat.A sz (allocOk Mat.A),
         Event.alloc Mat.B sz (allocOk Mat.B),
         Event.alloc Mat.C sz (allocOk Mat.C),
         Event.alloc Mat.chk sz (allocOk Mat.chk),
         Event.write Mat.A, Event.write Mat.B,
         Event.read Mat.A, Event.read Mat.B, Event.write Mat.chk,
         Event.read Mat.A, Event.read Mat.B, Event.write Mat.C]
        ++ (if dx ≤ 6 ∧ dy ≤ 6 then
              [Event.read Mat.chk, Event.read Mat.C, Event.printDump]
            else [])
        ++ [Event.read Mat.chk, Event.read Mat.C, Event.verify m,
            Event.free Mat.A, Event.free Mat.B,
            Event.free Mat.C, Event.free Mat.chk]⟩

/-- Checks that along an event trace every read of a matrix is preceded by a
write to that matrix; `ws` accumulates the matrices written so far. -/
def readsInitialized : List Event → List Mat → Bool
  | [], _ => true
  | Event.write m :: rest, ws => readsInitialized rest (m :: ws)
  | Event.read m :: rest, ws => ws.contains m && readsInitialized rest ws
  | _ :: rest, ws => readsInitialized rest ws

/-- Normalizes the allocation-success flag of an event, for stating that a
run is oblivious to allocation failure. -/
def eraseAllocOk : Event → Event
  | Event.alloc m size _ => Event.alloc m size true
  | e => e

/-- Whether an event is an allocation of matrix `m`. -/
def isAllocEvent (m : Mat) : Event → Bool
  | Event.alloc msub _ _ => msub == m
  | _ => false

/-- C1: for every valid pair of dimensions `dx, dy > 0` the device result
agrees with the host reference at every cell within `VERIF_TOL`, so
`MatrixVerification` reports zero mismatches (for every pair of input
matrices, in particular the constant-filled inputs of the harness). -/
theorem C1_device_matches_host (dx dy : Nat) (hdx : 0 < dx) (hdy : 0 < dy)
    (A B : Nat → ℚ) :
    (∀ i < dx * dy,
        |cpu_matrix_add A B dx dy i - gpu_matrix_add A B dx dy i| ≤ VERIF_TOL) ∧
    MatrixVerification (cpu_matrix_add A B dx dy) (gpu_matrix_add A B dx dy)
      dx dy VERIF_TOL = 0 := by
  constructor
  · intro i _
    simp [cpu_matrix_add, gpu_matrix_add, VERIF_TOL]
  · rw [MatrixVerification, List.countP_eq_zero]
    intro i _
    simp [cpu_matrix_add, gpu_matrix_add, VERIF_TOL]

/-- Witness for C1 at the spec scenario: `dx = dy = 4`, `A` filled with
`3.0` and `B` with `2.0`; zero mismatches at tolerance 1e-5. -/
theorem C1_device_matches_host_witness :
    MatrixVerification
      (cpu_matrix_add (fun _ => MAT_A_VAL) (fun _ => MAT_B_VAL) 4 4)
      (gpu_matrix_add (fun _ => MAT_A_VAL) (fun _ => MAT_B_VAL) 4 4)
      4 4 VERIF_TOL = 0 :=
  (C1_device_matches_host 4 4 (by decide) (by decide)
    (fun _ => MAT_A_VAL) (fun _ => MAT_B_VAL)).2

/-- C8: for all positive dimensions and all constant fill values `a`, `b`,
the host add of the constant-filled inputs is `a + b` at every cell. -/
theorem C8_const_fill_sum (dx dy : Nat) (hdx : 0 < dx) (hdy : 0 < dy)
    (a b : ℚ) (i : Nat) (hi : i < dx * dy) :
    cpu_matrix_add (InitializeMatrixSame dx dy a) (InitializeMatrixSame dx dy b)
      dx dy i = a + b := rfl

/-- Witness for C8 at the spec scenario: `dx = dy = 4`, fills 3 and 2,
cell 0 equals 3 + 2. -/
theorem C8_const_fill_sum_witness :
    cpu_matrix_add (InitializeMatrixSame 4 4 3) (InitializeMatrixSame 4 4 2)
      4 4 0 = 3 + 2 :=
  C8_const_fill_sum 4 4 (by decide) (by decide) 3 2 0 (by decide)

/-- C10: the host add is commutative in its two input matrices, cell by
cell over the declared grid. -/
theorem C10_host_add_commutative (A B : Nat → ℚ) (dx dy i : Nat)
    (hi : i < dx * dy) :
    cpu_matrix_add A B dx dy i = cpu_matrix_add B A dx dy i :=
  add_comm (A i) (B i)

/-- Witness for C10 at a concrete pair of matrices and cell. -/
theorem C10_host_add_commutative_witness :
    cpu_matrix_add (fun _ => (1 : ℚ)) (fun _ => (2 : ℚ)) 2 2 3 =
      cpu_matrix_add (fun _ => (2 : ℚ)) (fun _ => (1 : ℚ)) 2 2 3 :=
  C10_host_add_commutative (fun _ => (1 : ℚ)) (fun _ => (2 : ℚ)) 2 2 3 (by decide)

/-- Helper: with three or more positional arguments the resolution is the
usage error (argc is at least 4). -/
theorem resolveDims_usage_of_three_le (args : List Int) (g : Int)
    (h : 3 ≤ args.length) : resolveDims args g = Resolution.usage := by
  rw [resolveDims, argBranch]
  have h1 : ¬ (1 < args.length + 1 ∧ args.length + 1 < 4) := by omega
  have h2 : 4 ≤ args.length + 1 := by omega
  simp only [h1, if_false, h2, if_true, if_neg, if_pos]

/-- C2 counterexample: with exactly one positional argument the harness does
not reject with a usage error; the argument-count check takes the parsing
branch (with the second read out of range) and the run completes with exit
code 0, so the claim that every argument count other than 0 and 2 is
rejected fails. -/
theorem C2_counterexample :
    argBranch [7] = ArgBranch.parseBranch (some 7) none ∧
    argBranch [7] ≠ ArgBranch.usageBranch ∧
    (mainRun gpu_matrix_add (fun _ => true) [7] 5).exitCode = 0 := by
  refine ⟨by decide, by decide, ?_⟩
  rfl

/-- C2 (amended): two positional arguments yield exactly those dimensions,
no arguments yields the default square dimensions, and three or more
positional arguments yield the usage error with non-zero exit; but exactly
one positional argument is not rejected — the parsing branch is taken and
the second read indexes past the argument list. -/
theorem C2_argument_resolution (x y z g : Int) (rest : List Int) :
    resolveDims [] g = Resolution.dims DEFAULT_DIM DEFAULT_DIM ∧
    resolveDims [x, y] g = Resolution.dims x y ∧
    (resolveDims (x :: y :: z :: rest) g = Resolution.usage ∧
      (mainRun gpu_matrix_add (fun _ => true) (x :: y :: z :: rest) g).exitCode
        = -1) ∧
    argBranch [x] = ArgBranch.parseBranch (some x) none := by
  have hu : resolveDims (x :: y :: z :: rest) g = Resolution.usage :=
    resolveDims_usage_of_three_le _ g (by simp)
  refine ⟨rfl, rfl, ⟨hu, ?_⟩, rfl⟩
  rw [mainRun, hu]

/-- C3: when exactly one positional argument is supplied (argc = 2), the
argument-count check still takes the parsing branch, and the read for the
second dimension indexes position 1 of the positional-argument list, which
is past its end (`none` in the embedding): the second dimension is not
derived from any user-provided value. -/
theorem C3_one_argument_reads_out_of_range (args : List Int)
    (h : args.length = 1) :
    argBranch args = ArgBranch.parseBranch (args.get? 0) (args.get? 1) ∧
    args.get? 1 = none := by
  match args, h with
  | [x], _ => exact ⟨rfl, rfl⟩

/-- Witness for C3 at the single argument 7. -/
theorem C3_one_argument_reads_out_of_range_witness :
    argBranch [7] = ArgBranch.parseBranch (([7] : List Int).get? 0)
      (([7] : List Int).get? 1) ∧ ([7] : List Int).get? 1 = none :=
  C3_one_argument_reads_out_of_range [7] (by decide)

/-- C4: with three or more positional arguments (argc at least 4) the run
prints the usage message, returns the non-zero exit code -1, and its trace
is exactly the usage message — no allocation event and no compute, print,
verify or free event occurs. -/
theorem C4_usage_error_no_compute (deviceAdd : DeviceAddFn)
    (allocOk : Mat → Bool) (args : List Int) (g : Int)
    (h : 3 ≤ args.length) :
    (mainRun deviceAdd allocOk args g).exitCode = -1 ∧
    (mainRun deviceAdd allocOk args g).events = [Event.usageMsg] := by
  rw [mainRun, resolveDims_usage_of_three_le args g h]
  exact ⟨rfl, rfl⟩

/-- Witness for C4 at three positional arguments. -/
theorem C4_usage_error_no_compute_witness :
    (mainRun gpu_matrix_add (fun _ => true) [1, 2, 3] 0).exitCode = -1 ∧
    (mainRun gpu_matrix_add (fun _ => true) [1, 2, 3] 0).events
      = [Event.usageMsg] :=
  C4_usage_error_no_compute gpu_matrix_add (fun _ => true) [1, 2, 3] 0
    (by decide)

/-- Helper: the explicit shape of a run that resolved dimensions `dx, dy`. -/
theorem mainRun_dims_eq (deviceAdd : DeviceAddFn) (allocOk : Mat → Bool)
    (args : List Int) (g : Int) (dx dy : Int)
    (h : resolveDims args g = Resolution.dims dx dy) :
    mainRun deviceAdd allocOk args g =
      ⟨0, some (dx, dy),
        [Event.alloc Mat.A (dx * dy) (allocOk Mat.A),
         Event.alloc Mat.B (dx * dy) (allocOk Mat.B),
         Event.alloc Mat.C (dx * dy) (allocOk Mat.C),
         Event.alloc Mat.chk (dx * dy) (allocOk Mat.chk),
         Event.write Mat.A, Event.write Mat.B,
         Event.read Mat.A, Event.read Mat.B, Event.write Mat.chk,
         Event.read Mat.A, Event.read Mat.B, Event.write Mat.C]
        ++ (if dx ≤ 6 ∧ dy ≤ 6 then
              [Event.read Mat.chk, Event.read Mat.C, Event.printDump]
            else [])
        ++ [Event.read Mat.chk, Event.read Mat.C,
            Event.verify (MatrixVerification
              (cpu_matrix_add
                (InitializeMatrixSame dx.toNat dy.toNat MAT_A_VAL)
                (InitializeMatrixSame dx.toNat dy.toNat MAT_B_VAL)
                dx.toNat dy.toNat)
              (deviceAdd
                (InitializeMatrixSame dx.toNat dy.toNat MAT_A_VAL)
                (InitializeMatrixSame dx.toNat dy.toNat MAT_B_VAL)
                dx.toNat dy.toNat)
              dx.toNat dy.toNat VERIF_TOL),
            Event.free Mat.A, Event.free Mat.B,
            Event.free Mat.C, Event.free Mat.chk]⟩ := by
  rw [mainRun, h]

/-- Helper: the explicit shape of a run on the usage-error path. -/
theorem mainRun_usage_eq (deviceAdd : DeviceAddFn) (allocOk : Mat → Bool)
    (args : List Int) (g : Int)
    (h : resolveDims args g = Resolution.usage) :
    mainRun deviceAdd allocOk args g = ⟨-1, none, [Event.usageMsg]⟩ := by
  rw [mainRun, h]

/-- C5 counterexample: with every host allocation failing, the run does not
abort — it proceeds to write the failed buffers, never prints the usage
diagnostic, and completes with exit code 0; `main.cpp` never inspects the
result of any `malloc`, so host allocation failure is silently ignored. -/
theorem C5_counterexample :
    (mainRun gpu_matrix_add (fun _ => false) [2, 2] 0).exitCode = 0 ∧
    Event.alloc Mat.A 4 false
      ∈ (mainRun gpu_matrix_add (fun _ => false) [2, 2] 0).events ∧
    Event.write Mat.A
      ∈ (mainRun gpu_matrix_add (fun _ => false) [2, 2] 0).events ∧
    Event.usageMsg
      ∉ (mainRun gpu_matrix_add (fun _ => false) [2, 2] 0).events := by
  decide

/-- C5 (amended): the harness never checks the result of its four host
allocations — the run's exit code and entire event trace apart from the
success flags are identical whether the allocations succeed or fail, the
failed buffers are used regardless — and no allocation is ever retried:
each matrix is allocated at most once per run. -/
theorem C5_alloc_unchecked_never_retried (deviceAdd : DeviceAddFn)
    (allocOk : Mat → Bool) (args : List Int) (g : Int) :
    (mainRun deviceAdd allocOk args g).exitCode =
      (mainRun deviceAdd (fun _ => true) args g).exitCode ∧
    (mainRun deviceAdd allocOk args g).events.map eraseAllocOk =
      (mainRun deviceAdd (fun _ => true) args g).events.map eraseAllocOk ∧
    ∀ m : Mat,
      (mainRun deviceAdd allocOk args g).events.countP (isAllocEvent m) ≤ 1 := by
  cases hres : resolveDims args g with
  | usage =>
      rw [mainRun_usage_eq deviceAdd allocOk args g hres,
        mainRun_usage_eq deviceAdd (fun _ => true) args g hres]
      refine ⟨rfl, rfl, ?_⟩
      intro m
      cases m <;> decide
  | dims dx dy =>
      rw [mainRun_dims_eq deviceAdd allocOk args g dx dy hres,
        mainRun_dims_eq deviceAdd (fun _ => true) args g dx dy hres]
      by_cases hp : dx ≤ 6 ∧ dy ≤ 6
      · refine ⟨rfl, ?_, ?_⟩
        · simp [hp, eraseAllocOk]
        · intro m
          cases m <;> simp [hp, isAllocEvent, List.countP_append, List.countP_cons]
      · refine ⟨rfl, ?_, ?_⟩
        · simp [hp, eraseAllocOk]
        · intro m
          cases m <;> simp [hp, isAllocEvent, List.countP_append, List.countP_cons]

/-- C6: a verification mismatch is non-fatal — for every device-add
behavior (hence every possible mismatch count), every run that resolves
dimensions reports the verification outcome, frees all four matrices, and
returns exit code 0. -/
theorem C6_mismatch_nonfatal (deviceAdd : DeviceAddFn) (allocOk : Mat → Bool)
    (args : List Int) (g : Int) (dx dy : Int)
    (h : resolveDims args g = Resolution.dims dx dy) :
    (mainRun deviceAdd allocOk args g).exitCode = 0 ∧
    (∃ m, Event.verify m ∈ (mainRun deviceAdd allocOk args g).events) ∧
    ∀ mt : Mat, Event.free mt ∈ (mainRun deviceAdd allocOk args g).events := by
  rw [mainRun_dims_eq deviceAdd allocOk args g dx dy h]
  refine ⟨rfl, ?_, ?_⟩
  · exact ⟨MatrixVerification
      (cpu_matrix_add (InitializeMatrixSame dx.toNat dy.toNat MAT_A_VAL)
        (InitializeMatrixSame dx.toNat dy.toNat MAT_B_VAL) dx.toNat dy.toNat)
      (deviceAdd (InitializeMatrixSame dx.toNat dy.toNat MAT_A_VAL)
        (InitializeMatrixSame dx.toNat dy.toNat MAT_B_VAL) dx.toNat dy.toNat)
      dx.toNat dy.toNat VERIF_TOL, by simp⟩
  · intro mt
    cases mt <;> simp

/-- Witness for C6 with a deliberately wrong device add (every cell 1000,
far beyond the tolerance from the host result 5): the run still exits 0,
reports a verification event, and frees all four matrices. -/
theorem C6_mismatch_nonfatal_witness :
    (mainRun (fun _ _ _ _ => fun _ => 1000) (fun _ => true) [2, 2] 0).exitCode
      = 0 ∧
    (∃ m, Event.verify m
      ∈ (mainRun (fun _ _ _ _ => fun _ => 1000) (fun _ => true) [2, 2] 0).events) ∧
    ∀ mt : Mat, Event.free mt
      ∈ (mainRun (fun _ _ _ _ => fun _ => 1000) (fun _ => true) [2, 2] 0).events :=
  C6_mismatch_nonfatal (fun _ _ _ _ => fun _ => 1000) (fun _ => true)
    [2, 2] 0 2 2 (by decide)

/-- C7 counterexample: the run with positional arguments `0 5` resolves
`dx = 0` and still reaches the compute phases (the host reference `chk` is
written), so `dx > 0` does not hold on every run that reaches compute. -/
theorem C7_counterexample :
    (mainRun gpu_matrix_add (fun _ => true) [0, 5] 0).dims = some (0, 5) ∧
    Event.write Mat.chk
      ∈ (mainRun gpu_matrix_add (fun _ => true) [0, 5] 0).events ∧
    ¬ (0 : Int) < 0 := by
  decide

/-- C7 (amended): on every run that reaches the compute phases, the four
allocation events come first and request the identical size `dx * dy`, and
no matrix is ever read before having been fully written; the dimensions are
positive on the default (no-argument) path, but a run whose arguments parse
to non-positive values also reaches the compute phases. -/
theorem C7_alloc_init_invariant (deviceAdd : DeviceAddFn)
    (allocOk : Mat → Bool) (args : List Int) (g : Int) (dx dy : Int)
    (h : resolveDims args g = Resolution.dims dx dy) :
    (mainRun deviceAdd allocOk args g).events.take 4 =
      [Event.alloc Mat.A (dx * dy) (allocOk Mat.A),
       Event.alloc Mat.B (dx * dy) (allocOk Mat.B),
       Event.alloc Mat.C (dx * dy) (allocOk Mat.C),
       Event.alloc Mat.chk (dx * dy) (allocOk Mat.chk)] ∧
    readsInitialized (mainRun deviceAdd allocOk args g).events [] = true ∧
    (args = [] → 0 < dx ∧ 0 < dy) := by
  rw [mainRun_dims_eq deviceAdd allocOk args g dx dy h]
  refine ⟨rfl, ?_, ?_⟩
  · by_cases hp : dx ≤ 6 ∧ dy ≤ 6
    · simp only [hp, if_pos]
      rfl
    · simp only [hp, if_neg, not_false_iff]
      rfl
  · intro he
    subst he
    have hd : resolveDims [] g = Resolution.dims DEFAULT_DIM DEFAULT_DIM := rfl
    rw [hd] at h
    injection h with h1 h2
    rw [← h1, ← h2]
    decide

/-- Witness for C7 at the counterexample input `0 5`: the allocation prefix
and read/write discipline hold even though `dx = 0`. -/
theorem C7_alloc_init_invariant_witness :
    (mainRun gpu_matrix_add (fun _ => true) [0, 5] 0).events.take 4 =
      [Event.alloc Mat.A 0 true, Event.alloc Mat.B 0 true,
       Event.alloc Mat.C 0 true, Event.alloc Mat.chk 0 true] ∧
    readsInitialized (mainRun gpu_matrix_add (fun _ => true) [0, 5] 0).events []
      = true ∧
    (([0, 5] : List Int) = [] → 0 < (0 : Int) ∧ 0 < (5 : Int)) :=
  C7_alloc_init_invariant gpu_matrix_add (fun _ => true) [0, 5] 0 0 5 (by decide)

/-- C9: a run that reaches the compute phases prints the two result
matrices if and only if `dx ≤ 6` and `dy ≤ 6`. -/
theorem C9_print_iff_small (deviceAdd : DeviceAddFn) (allocOk : Mat → Bool)
    (args : List Int) (g : Int) (dx dy : Int)
    (h : resolveDims args g = Resolution.dims dx dy) :
    Event.printDump ∈ (mainRun deviceAdd allocOk args g).events ↔
      (dx ≤ 6 ∧ dy ≤ 6) := by
  rw [mainRun_dims_eq deviceAdd allocOk args g dx dy h]
  by_cases hp : dx ≤ 6 ∧ dy ≤ 6
  · simp [hp]
  · simp [hp]

/-- Witness for C9 at `dx = dy = 4` (prints) and `dx = dy = 7` (does not
print). -/
theorem C9_print_iff_small_witness :
    (Event.printDump ∈ (mainRun gpu_matrix_add (fun _ => true) [4, 4] 0).events
      ↔ ((4 : Int) ≤ 6 ∧ (4 : Int) ≤ 6)) ∧
    (Event.printDump ∈ (mainRun gpu_matrix_add (fun _ => true) [7, 7] 0).events
      ↔ ((7 : Int) ≤ 6 ∧ (7 : Int) ≤ 6)) :=
  ⟨C9_print_iff_small gpu_matrix_add (fun _ => true) [4, 4] 0 4 4 (by decide),
   C9_print_iff_small gpu_matrix_add (fun _ => true) [7, 7] 0 7 7 (by decide)⟩

end MatrixAdd
